import Mathlib

/-!
Verification of the pagination-and-stability-driven extraction loop of
`scraperWorker.js` (the PRICE-SCRAPER repository).

The JavaScript worker is shallowly embedded: the browser/DOM side effects are
replaced by explicit traces (measured document heights, product-card counts,
the list of rendered cards per extraction attempt, the state of the "Next"
pagination control), and each loop of the source becomes a Lean function over
those traces.  JS strings are Lean `String`s; `String#trim` and
`replace(/\D+/g, "")` are modelled on the underlying character list, and JS
string falsiness (`s || dflt`) is the emptiness test.
-/

namespace PriceScraper

/-- JS `String#trim` on the character list: drop whitespace from the front,
then from the back (modelled as reverse / dropWhile / reverse). -/
def trimChars (l : List Char) : List Char :=
((l.dropWhile Char.isWhitespace).reverse.dropWhile Char.isWhitespace).reverse

/-- JS `s.trim()`. -/
def jsTrim (s : String) : String :=
String.mk (trimChars s.data)

/-- JS `s.replace(/\D+/g, "")`: deleting every run of non-digit characters
keeps exactly the decimal digits of `s`, in order. -/
def stripNonDigits (s : String) : String :=
String.mk (s.data.filter Char.isDigit)

/-- JS `s || dflt` for strings: the only falsy string is `""`. -/
def jsOrElse (s dflt : String) : String :=
if s = "" then dflt else s

/-- One rendered item card, as the three `querySelector` targets that
`extractFieldsFromCard` reads: `none` models an absent element, `some t` an
element whose `textContent` is `t` (`getText` trims it). -/
structure Card where
  nameText : Option String
  dollarsText : Option String
  centsText : Option String

/-- The worker's `getText` helper: `el ? el.textContent.trim() : ""`. -/
def getText : Option String → String
  | some t => jsTrim t
  | none => ""

/-- A scraped record `{ productName, price }`. -/
structure Product where
  productName : String
  price : String
deriving DecidableEq, Repr

/-- Model of `extractFieldsFromCard` (scraperWorker.js:231-251): read the name text and
the two price parts, strip non-digits from each part, default to `"0"` /
`"00"` when nothing is left, and compose `` `$dollars.cents` `` (the source
calls `.trim()` on the composed template string). -/
def extractFieldsFromCard (card : Card) : Product :=
  let productName := getText card.nameText
  let rawDollarText := getText card.dollarsText
  let rawCentsText := getText card.centsText
  let dollarDigits := jsOrElse (stripNonDigits rawDollarText) "0"
  let centsDigits := jsOrElse (stripNonDigits rawCentsText) "00"
  let finalPrice := jsTrim ("$" ++ dollarDigits ++ "." ++ centsDigits)
  { productName := productName, price := finalPrice }

/-- Model of `page.$$eval("article[acl-product-card]", cards.map(extractFieldsFromCard))`
(scraperWorker.js:300-308): one snapshot, mapped over the cards in DOM order. -/
def extractSnapshot (cards : List Card) : List Product :=
cards.map extractFieldsFromCard

/-- The filter of scraperWorker.js:311-313: entries with a falsy (empty)
`productName` or a price of exactly `"$0.00"`. -/
def invalidEntries (productData : List Product) : List Product :=
productData.filter fun p => p.productName == "" || p.price == "$0.00"

/-- The inner loop of `scrollUntilNoChange` (scraperWorker.js:33-43), run on a
trace of measured `document.body.scrollHeight` values: scroll, wait, read the
next height; break when it equals the previous one.  `some h` means the loop
broke with final height `h`; `none` means the finite trace was consumed with
the loop still running. -/
def scrollGo : List Nat → Nat → Option Nat
  | [], _ => none
  | currentHeight :: rest, previousHeight =>
    if currentHeight = previousHeight then some currentHeight
    else scrollGo rest currentHeight

/-- Model of `scrollUntilNoChange` (scraperWorker.js:31-44) on a height trace whose
head is the initial `scrollHeight` reading taken before the loop.  The source
loop is `while (true)` with no iteration cap: on an empty trace there is no
initial reading, so no simulation is possible and the result is `none`. -/
def scrollUntilNoChange : List Nat → Option Nat
  | [] => none
  | initialHeight :: rest => scrollGo rest initialHeight

/-- The `while (stableCountRepeats < maxRepeats)` loop of
`scrollAndWaitForStability` (scraperWorker.js:60-82) on a trace of product-card
counts: on each iteration read the next count; if it equals `lastCount`
increment `stableCountRepeats`, otherwise reset `stableCountRepeats` to 0 and
set `lastCount` to the new count.  `some c` means the loop exited with
`lastCount = c`; `none` means the trace was consumed while the loop still
demanded another reading. -/
def stabilityGo (maxRepeats : Nat) (counts : List Nat)
    (stableCountRepeats lastCount : Nat) : Option Nat :=
  if maxRepeats ≤ stableCountRepeats then some lastCount
  else
    match counts with
    | [] => none
    | currentCount :: rest =>
      if currentCount = lastCount then
        stabilityGo maxRepeats rest (stableCountRepeats + 1) lastCount
      else
        stabilityGo maxRepeats rest 0 currentCount

/-- Model of `scrollAndWaitForStability` (scraperWorker.js:54-89): the stabilization
loop started from `stableCountRepeats = 0`, `lastCount = 0`. -/
def scrollAndWaitForStability (counts : List Nat) (maxRepeats : Nat) : Option Nat :=
stabilityGo maxRepeats counts 0 0

/-- The observable outcome of the per-page extraction retry loop
(scraperWorker.js:293-334): the working `productData` snapshot, the number of
extraction attempts performed, and the `validDataFound` flag. -/
structure RetryResult where
  productData : List Product
  attempts : Nat
  validDataFound : Bool
deriving DecidableEq, Repr

/-- The `while (!validDataFound && attempts < 3)` retry loop
(scraperWorker.js:296-334).  `dom k` is the list of product cards rendered
when the `(k+1)`-th extraction attempt runs (the page is refreshed and
re-stabilized between attempts, so each attempt may see different cards).
Each iteration increments `attempts`, overwrites `productData` with a fresh
extraction, and either retries (when `invalidEntries` is non-empty) or sets
`validDataFound`. -/
def retryGo (dom : Nat → List Card) (validDataFound : Bool) (attempts : Nat)
    (productData : List Product) : RetryResult :=
  if h : validDataFound = false ∧ attempts < 3 then
    let productData1 := extractSnapshot (dom attempts)
    if 0 < (invalidEntries productData1).length then
      retryGo dom false (attempts + 1) productData1
    else
      retryGo dom true (attempts + 1) productData1
  else
    { productData := productData, attempts := attempts,
      validDataFound := validDataFound }
termination_by 3 - attempts
decreasing_by
  all_goals omega

/-- The retry loop as entered by `scrapeAllProducts`:
`validDataFound = false`, `attempts = 0`, `productData = []`. -/
def extractWithRetry (dom : Nat → List Card) : RetryResult :=
retryGo dom false 0 []

/-- The rendered state of the `'a[aria-label="Next Page"]'` control
(scraperWorker.js:367-393): `page.$` found nothing, or found it disabled, or
found it enabled. -/
inductive NextControl where
  | absent
  | disabled
  | enabled
deriving DecidableEq, Repr

/-- One page of the site as the worker observes it: the cards rendered at each
extraction attempt, and the state of the "Next" control. -/
structure SitePage where
  dom : Nat → List Card
  nextButton : NextControl

/-- The hard page cap `const MAX_PAGES = 20` (scraperWorker.js:268). -/
def MAX_PAGES : Nat := 20

/-- The `while (true)` pagination loop of `scrapeAllProducts`
(scraperWorker.js:271-407).  `site p` is the page reached after `p - 1`
activations of the "Next" control (pages are numbered from 1, as `pageCount`
is).  Each cycle increments `pageCount`, stabilizes and extracts with retries,
appends the snapshot to `allProducts`, then decides: stop when
`pageCount >= MAX_PAGES` (checked first), stop when the "Next" control is
absent or disabled, otherwise navigate and loop.  The pair returned is
`(allProducts, pageCount)`; the source returns only `allProducts`, and the
final `pageCount` instruments how many pages were processed. -/
def scrapeGo (site : Nat → SitePage) (allProducts : List Product)
    (pageCount : Nat) : List Product × Nat :=
  let pageCount1 := pageCount + 1
  let r := extractWithRetry (site pageCount1).dom
  let allProducts1 := allProducts ++ r.productData
  if h : MAX_PAGES ≤ pageCount1 then (allProducts1, pageCount1)
  else
    match (site pageCount1).nextButton with
    | NextControl.absent => (allProducts1, pageCount1)
    | NextControl.disabled => (allProducts1, pageCount1)
    | NextControl.enabled => scrapeGo site allProducts1 pageCount1
termination_by MAX_PAGES - pageCount
decreasing_by
  simp only [MAX_PAGES] at h ⊢
  omega

/-- Model of `scrapeAllProducts` (scraperWorker.js:257-411): the pagination loop from
`allProducts = []`, `pageCount = 0`. -/
def scrapeAllProducts (site : Nat → SitePage) : List Product × Nat :=
scrapeGo site [] 0

/-- The snapshot one page contributes to the run: the `productData` left by
its retry loop (pushed into `allProducts` at scraperWorker.js:352). -/
def pageSnapshot (site : Nat → SitePage) (p : Nat) : List Product :=
(extractWithRetry (site p).dom).productData

/-- The failure points of the main IIFE (scraperWorker.js:419-529), as flags:
whether `puppeteer.connect` resolves, whether the store-selection setup (new
page, navigation, `changeStore`) completes, and whether the scrape-and-output
phase (`scrapeAllProducts`, page close, CSV write) completes without a thrown
error (e.g. a navigation timeout). -/
structure RunEnv where
  connectOk : Bool
  setupOk : Bool
  scrapeOk : Bool
  site : Nat → SitePage

/-- What one run of the main IIFE observably produces: the RunResult handed to
the caller, how many times `browser.close()` was invoked, and how many times
the `finally` cleanup phase ran. -/
structure RunOutcome where
  runResult : List Product
  browserCloseCalls : Nat
  cleanupRuns : Nat
deriving DecidableEq, Repr

/-- The `try` body of the main IIFE: `connectToBrowser`, then the setup page
and `changeStore`, then the scrape; the first failing step throws, and a
completed body yields the scraped products. -/
def tryBody (env : RunEnv) : Except Unit (List Product) :=
  if env.connectOk = false then Except.error ()
  else if env.setupOk = false then Except.error ()
  else if env.scrapeOk = false then Except.error ()
  else Except.ok (scrapeAllProducts env.site).1

/-- The main IIFE (scraperWorker.js:419-529).  The `catch` turns any thrown
error into the empty result (`return []`).  The `finally` phase always runs
exactly once; inside it `browser.close()` is guarded by `if (browser)`, and
the `browser` variable is assigned exactly when `puppeteer.connect` resolved,
so the close call happens once when the connection succeeded and never when it
failed. -/
def mainRun (env : RunEnv) : RunOutcome :=
  let browserAssigned := env.connectOk
  let result :=
    match tryBody env with
    | Except.ok products => products
    | Except.error _ => []
  { runResult := result
    browserCloseCalls := if browserAssigned = true then 1 else 0
    cleanupRuns := 1 }

/-! ## Retry-loop lemmas -/

theorem retryGo_stop (dom : Nat → List Card) (v : Bool) (a : Nat)
    (pd : List Product) (h : ¬(v = false ∧ a < 3)) :
    retryGo dom v a pd =
      { productData := pd, attempts := a, validDataFound := v } := by
  rw [retryGo]
  simp only [dif_neg h]

theorem retryGo_step (dom : Nat → List Card) (a : Nat) (pd : List Product)
    (h : a < 3) :
    retryGo dom false a pd =
      if 0 < (invalidEntries (extractSnapshot (dom a))).length then
        retryGo dom false (a + 1) (extractSnapshot (dom a))
      else
        retryGo dom true (a + 1) (extractSnapshot (dom a)) := by
  rw [retryGo]
  simp [h]

/-- Closed form of the retry loop: the three possible attempt outcomes,
branching on whether each attempt's extraction contains invalid entries. -/
theorem extractWithRetry_eq (dom : Nat → List Card) :
    extractWithRetry dom =
      if 0 < (invalidEntries (extractSnapshot (dom 0))).length then
        if 0 < (invalidEntries (extractSnapshot (dom 1))).length then
          if 0 < (invalidEntries (extractSnapshot (dom 2))).length then
            { productData := extractSnapshot (dom 2), attempts := 3,
              validDataFound := false }
          else
            { productData := extractSnapshot (dom 2), attempts := 3,
              validDataFound := true }
        else
          { productData := extractSnapshot (dom 1), attempts := 2,
            validDataFound := true }
      else
        { productData := extractSnapshot (dom 0), attempts := 1,
          validDataFound := true } := by
  unfold extractWithRetry
  rw [retryGo_step dom 0 [] (by norm_num)]
  split
  · rw [retryGo_step dom 1 _ (by norm_num)]
    split
    · rw [retryGo_step dom 2 _ (by norm_num)]
      split
      · rw [retryGo_stop _ _ _ _ (by simp)]
      · rw [retryGo_stop _ _ _ _ (by simp)]
    · rw [retryGo_stop _ _ _ _ (by simp)]
  · rw [retryGo_stop _ _ _ _ (by simp)]

/-! ## String helper lemmas -/

theorem isWhitespace_false_of_isDigit (c : Char) (h : c.isDigit = true) :
    c.isWhitespace = false := by
  by_contra hw
  rw [Bool.not_eq_false] at hw
  simp only [Char.isWhitespace, Bool.or_eq_true, decide_eq_true_eq] at hw
  rcases hw with ((h1 | h1) | h1) | h1 <;> subst h1 <;> exact absurd h (by decide)

theorem dropWhile_eq_self_of_all {p : Char → Bool} (l : List Char)
    (h : ∀ c ∈ l, p c = false) : l.dropWhile p = l := by
  cases l with
  | nil => rfl
  | cons a t =>
    rw [List.dropWhile_cons, h a (List.mem_cons_self a t)]
    simp

theorem trimChars_eq_self (l : List Char)
    (h : ∀ c ∈ l, c.isWhitespace = false) : trimChars l = l := by
  unfold trimChars
  rw [dropWhile_eq_self_of_all l h]
  rw [dropWhile_eq_self_of_all l.reverse (fun c hc => h c (List.mem_reverse.mp hc))]
  exact List.reverse_reverse l

theorem jsTrim_eq_self (s : String)
    (h : ∀ c ∈ s.data, c.isWhitespace = false) : jsTrim s = s := by
  cases s with
  | mk l =>
    show String.mk (trimChars l) = String.mk l
    rw [trimChars_eq_self l h]

theorem isDigit_of_mem_jsOrElse_strip (s dflt : String)
    (hd : ∀ c ∈ dflt.data, c.isDigit = true) :
    ∀ c ∈ (jsOrElse (stripNonDigits s) dflt).data, c.isDigit = true := by
  intro c hc
  unfold jsOrElse at hc
  split at hc
  · exact hd c hc
  · exact (List.mem_filter.mp hc).2

theorem price_no_whitespace (d cts : String)
    (hd : ∀ c ∈ d.data, c.isDigit = true)
    (hc : ∀ c ∈ cts.data, c.isDigit = true) :
    ∀ ch ∈ ("$" ++ d ++ "." ++ cts).data, ch.isWhitespace = false := by
  intro ch hch
  rw [String.data_append, String.data_append, String.data_append] at hch
  have hdollar : ("$" : String).data = ['$'] := rfl
  have hdot : ("." : String).data = ['.'] := rfl
  rw [hdollar, hdot] at hch
  simp only [List.mem_append, List.mem_singleton] at hch
  rcases hch with ((h1 | h1) | h1) | h1
  · subst h1; decide
  · exact isWhitespace_false_of_isDigit ch (hd ch h1)
  · subst h1; decide
  · exact isWhitespace_false_of_isDigit ch (hc ch h1)

theorem jsTrim_price (d cts : String)
    (hd : ∀ c ∈ d.data, c.isDigit = true)
    (hc : ∀ c ∈ cts.data, c.isDigit = true) :
    jsTrim ("$" ++ d ++ "." ++ cts) = "$" ++ d ++ "." ++ cts :=
jsTrim_eq_self ("$" ++ d ++ "." ++ cts) (price_no_whitespace d cts hd hc)

/-- Claim C6: for every item card the Record Extractor strips all non-digit
characters from the dollars and cents texts, defaults them to `"0"` and
`"00"` when no digits remain, and composes the price string
`` `$dollars.cents` `` (the source's final `.trim()` never changes it, since
the composed string contains no whitespace); in particular dollars text
`"$1,234"` with cents text `"56"` yields `"$1234.56"`, and a missing cents
element yields `` `$dollars.00` ``. -/
theorem extractor_price_composition (card : Card) :
    (extractFieldsFromCard card).productName = getText card.nameText
  ∧ (extractFieldsFromCard card).price =
      "$" ++ jsOrElse (stripNonDigits (getText card.dollarsText)) "0" ++ "." ++
        jsOrElse (stripNonDigits (getText card.centsText)) "00"
  ∧ extractFieldsFromCard
      { nameText := some "2x4x8 Stud", dollarsText := some "$1,234",
        centsText := some "56" } =
      { productName := "2x4x8 Stud", price := "$1234.56" }
  ∧ (card.centsText = none →
      (extractFieldsFromCard card).price =
        "$" ++ jsOrElse (stripNonDigits (getText card.dollarsText)) "0" ++ ".00") := by
  refine ⟨rfl, ?_, by decide, ?_⟩
  · exact jsTrim_price _ _
      (isDigit_of_mem_jsOrElse_strip (getText card.dollarsText) "0" (by decide))
      (isDigit_of_mem_jsOrElse_strip (getText card.centsText) "00" (by decide))
  · intro h
    have h2 : jsOrElse (stripNonDigits (getText card.centsText)) "00" = "00" := by
      rw [h]
      rfl
    have h3 : (extractFieldsFromCard card).price =
        jsTrim ("$" ++ jsOrElse (stripNonDigits (getText card.dollarsText)) "0"
          ++ "." ++ jsOrElse (stripNonDigits (getText card.centsText)) "00") := rfl
    rw [h3, h2,
      jsTrim_price _ _
        (isDigit_of_mem_jsOrElse_strip (getText card.dollarsText) "0" (by decide))
        (by decide)]
    rw [String.append_assoc]
    rfl

/-! ## Stability Detector and scroll-loop lemmas -/

/-- Claim C2, counterexample: on the count trace `[3,3,3,3,3]` (5 consecutive
equal readings) with threshold 5, the detector does NOT terminate: because
`lastCount` is initialized to 0, the first reading of 3 only resets the state
(`stableRepeats = 0`, `lastCount = 3`), so after all five readings
`stableRepeats = 4 < 5` and the loop still demands a further reading — the
simulation ends in `none`, not with `lastCount = 3`. -/
theorem stability_five_equal_readings_not_terminated :
    scrollAndWaitForStability [3, 3, 3, 3, 3] 5 = none := by
  rfl

/-- Claim C2, amended: starting from `stableRepeats = 0`, `lastCount = 0`, the
trace `[3,3,3,3,3,3]` (one reading establishing `lastCount = 3` followed by 5
consecutive equal readings) terminates with `lastCount = 3`; on `[3,4,4,4,4,4]`
the detector has not yet terminated (the change from 3 to 4 resets
`stableRepeats`, so only the trailing run of equal values counts), and one
further reading of 4 terminates it with `lastCount = 4`; in general a reading
different from `lastCount` resets the state exactly as the code does. -/
theorem stability_detector_amended :
    scrollAndWaitForStability [3, 3, 3, 3, 3, 3] 5 = some 3
  ∧ scrollAndWaitForStability [3, 4, 4, 4, 4, 4] 5 = none
  ∧ scrollAndWaitForStability [3, 4, 4, 4, 4, 4, 4] 5 = some 4
  ∧ (∀ (maxRepeats stableCountRepeats lastCount currentCount : Nat)
      (rest : List Nat),
      stableCountRepeats < maxRepeats → currentCount ≠ lastCount →
      stabilityGo maxRepeats (currentCount :: rest) stableCountRepeats lastCount
        = stabilityGo maxRepeats rest 0 currentCount) := by
  refine ⟨rfl, rfl, rfl, ?_⟩
  intro maxRepeats sr last c rest h1 h2
  rw [stabilityGo]
  rw [if_neg (by omega)]
  rw [if_neg h2]

theorem scrollGo_isSome_iff (rest : List Nat) :
    ∀ prev : Nat, (scrollGo rest prev).isSome = true ↔
      ¬ List.Chain' (fun a b => a ≠ b) (prev :: rest) := by
  induction rest with
  | nil =>
    intro prev
    simp [scrollGo]
  | cons h t ih =>
    intro prev
    by_cases he : h = prev
    · subst he
      simp [scrollGo, List.chain'_cons]
    · rw [scrollGo]
      rw [if_neg he]
      rw [ih h]
      rw [List.chain'_cons]
      have hne : prev ≠ h := fun hp => he hp.symm
      simp [hne]

theorem stabilityGo_none_of_increasing (maxRepeats : Nat) (counts : List Nat) :
    ∀ lastCount stableCountRepeats : Nat,
      stableCountRepeats < maxRepeats →
      List.Chain' (fun a b => a < b) (lastCount :: counts) →
      stabilityGo maxRepeats counts stableCountRepeats lastCount = none := by
  induction counts with
  | nil =>
    intro last sr hsr _
    rw [stabilityGo]
    rw [if_neg (by omega)]
  | cons c rest ih =>
    intro last sr hsr hchain
    rw [List.chain'_cons] at hchain
    rw [stabilityGo]
    rw [if_neg (by omega)]
    rw [if_neg (by omega : ¬c = last)]
    exact ih c 0 (by omega) hchain.2

/-- Claim C7: the inner scroll loop has no iteration cap — on a trace of
measured heights it breaks exactly when some newly measured height equals the
immediately preceding one (i.e. exactly when the trace is not a chain of
pairwise-distinct neighbours), so a trace that grows at every measurement is
consumed entirely with the loop still running; likewise the outer
stabilization loop is bounded only by the repeat-count threshold: a count
trace that keeps growing (never repeating the current `lastCount`) is consumed
entirely, however long it is, with the loop still running. -/
theorem scroll_loops_unbounded :
    (∀ heights : List Nat, (scrollUntilNoChange heights).isSome = true ↔
        ¬ List.Chain' (fun a b => a ≠ b) heights)
  ∧ (∀ heights : List Nat, List.Chain' (fun a b => a < b) heights →
        scrollUntilNoChange heights = none)
  ∧ (∀ (counts : List Nat) (maxRepeats : Nat), 0 < maxRepeats →
        List.Chain' (fun a b => a < b) (0 :: counts) →
        scrollAndWaitForStability counts maxRepeats = none) := by
  have hiff : ∀ heights : List Nat, (scrollUntilNoChange heights).isSome = true ↔
      ¬ List.Chain' (fun a b => a ≠ b) heights := by
    intro heights
    cases heights with
    | nil => simp [scrollUntilNoChange]
    | cons h0 rest => exact scrollGo_isSome_iff rest h0
  refine ⟨hiff, ?_, ?_⟩
  · intro heights hchain
    have h1 : List.Chain' (fun a b => a ≠ b) heights :=
      List.Chain'.imp (fun a b hab => Nat.ne_of_lt hab) hchain
    have h2 := (hiff heights).not.mpr (not_not_intro h1)
    rw [Bool.not_eq_true] at h2
    cases hopt : scrollUntilNoChange heights with
    | none => rfl
    | some v =>
      rw [hopt] at h2
      simp at h2
  · intro counts maxRepeats hpos hchain
    exact stabilityGo_none_of_increasing maxRepeats counts 0 0 hpos hchain

/-! ## Validation and retry claims -/

/-- Claim C3: at most 3 extraction attempts per page; every non-final attempt
was retried exactly because its snapshot contained an invalid record (after a
refresh-and-restabilize, modelled by the next `dom` state); the loop's
outcome is always the last attempt's snapshot, and when that snapshot is still
invalid after the 3rd attempt it is returned as-is (`validDataFound = false`,
`attempts = 3`) rather than raising — the pagination loop then appends it to
the run unconditionally (see the run-accumulation theorems). -/
theorem retry_governor_bounds (dom : Nat → List Card) :
    (1 ≤ (extractWithRetry dom).attempts ∧ (extractWithRetry dom).attempts ≤ 3)
  ∧ (extractWithRetry dom).productData =
      extractSnapshot (dom ((extractWithRetry dom).attempts - 1))
  ∧ (∀ k, k + 1 < (extractWithRetry dom).attempts →
      0 < (invalidEntries (extractSnapshot (dom k))).length)
  ∧ ((extractWithRetry dom).validDataFound = true ↔
      (invalidEntries (extractWithRetry dom).productData).length = 0)
  ∧ ((extractWithRetry dom).validDataFound = false →
      (extractWithRetry dom).attempts = 3 ∧
      (extractWithRetry dom).productData = extractSnapshot (dom 2)) := by
  rw [extractWithRetry_eq]
  split_ifs with h0 h1 h2 <;> dsimp only
  · refine ⟨⟨by norm_num, by norm_num⟩, rfl, ?_, ?_, fun _ => ⟨rfl, rfl⟩⟩
    · intro k hk
      match k with
      | 0 => exact h0
      | 1 => exact h1
      | k + 2 => omega
    · simp only [Bool.false_eq_true, false_iff]
      omega
  · refine ⟨⟨by norm_num, by norm_num⟩, rfl, ?_, ?_, ?_⟩
    · intro k hk
      match k with
      | 0 => exact h0
      | 1 => exact h1
      | k + 2 => omega
    · simp only [true_iff]
      omega
    · intro hx
      exact absurd hx (by decide)
  · refine ⟨⟨by norm_num, by norm_num⟩, rfl, ?_, ?_, ?_⟩
    · intro k hk
      match k with
      | 0 => exact h0
      | k + 1 => omega
    · simp only [true_iff]
      omega
    · intro hx
      exact absurd hx (by decide)
  · refine ⟨⟨by norm_num, by norm_num⟩, rfl, ?_, ?_, ?_⟩
    · intro k hk
      omega
    · simp only [true_iff]
      omega
    · intro hx
      exact absurd hx (by decide)

/-- Claim C5: a snapshot triggers the invalid-entries branch (the retry) if
and only if it contains a record whose name is the empty string or whose
price is exactly the string `"$0.00"`; accordingly the retry loop performs a
second attempt exactly when the first extraction's snapshot is classified
invalid. -/
theorem invalid_snapshot_iff (productData : List Product) (dom : Nat → List Card) :
    (0 < (invalidEntries productData).length ↔
      ∃ p ∈ productData, p.productName = "" ∨ p.price = "$0.00")
  ∧ (1 < (extractWithRetry dom).attempts ↔
      0 < (invalidEntries (extractSnapshot (dom 0))).length) := by
  constructor
  · unfold invalidEntries
    rw [List.length_pos, Ne, List.filter_eq_nil_iff]
    push_neg
    simp only [Bool.or_eq_true, beq_iff_eq, not_not]
  · rw [extractWithRetry_eq]
    split_ifs with h0 h1 h2 <;> dsimp only <;> simp [h0]

/-- Claim C9: a page rendering zero matching item cards yields an empty
snapshot, which contains no invalid record, so the very first extraction
attempt is accepted (`attempts = 1`, `validDataFound = true`, no retries) and
the page contributes zero records to the RunResult. -/
theorem empty_page_single_attempt (site : Nat → SitePage) (p : Nat)
    (h : (site p).dom 0 = []) :
    extractWithRetry (site p).dom =
      { productData := [], attempts := 1, validDataFound := true }
  ∧ pageSnapshot site p = [] := by
  have h1 : extractWithRetry (site p).dom =
      { productData := [], attempts := 1, validDataFound := true } := by
    rw [extractWithRetry_eq]
    rw [h]
    rw [if_neg (by decide)]
    rfl
  refine ⟨h1, ?_⟩
  unfold pageSnapshot
  rw [h1]

/-- Witness for claim C9 at a concrete site whose pages render no cards. -/
theorem empty_page_single_attempt_witness :
    extractWithRetry
        ((fun _ : Nat => SitePage.mk (fun _ => []) NextControl.absent) 1).dom
      = { productData := [], attempts := 1, validDataFound := true }
  ∧ pageSnapshot (fun _ : Nat => SitePage.mk (fun _ => []) NextControl.absent) 1
      = [] :=
empty_page_single_attempt
  (fun _ : Nat => SitePage.mk (fun _ => []) NextControl.absent) 1 rfl

/-! ## Pagination-loop lemmas -/

/-- One induction over the pagination loop: the final `pageCount` strictly
exceeds the starting one and never exceeds `MAX_PAGES`; the accumulated list
is the starting accumulator followed by the snapshots of the processed pages
in arrival order; and the loop stopped either at the hard cap or at a "Next"
control that was not enabled. -/
theorem scrapeGo_spec (site : Nat → SitePage) :
    ∀ (fuel pageCount : Nat) (acc : List Product),
      MAX_PAGES ≤ pageCount + fuel → pageCount < MAX_PAGES →
      pageCount < (scrapeGo site acc pageCount).2
    ∧ (scrapeGo site acc pageCount).2 ≤ MAX_PAGES
    ∧ (scrapeGo site acc pageCount).1 =
        acc ++ ((List.range' (pageCount + 1)
          ((scrapeGo site acc pageCount).2 - pageCount)).map
            (pageSnapshot site)).flatten
    ∧ ((scrapeGo site acc pageCount).2 = MAX_PAGES ∨
        (site (scrapeGo site acc pageCount).2).nextButton ≠
          NextControl.enabled) := by
  intro fuel
  induction fuel with
  | zero =>
    intro pc acc hfuel hlt
    omega
  | succ fuel ih =>
    intro pc acc hfuel hlt
    rw [scrapeGo]
    by_cases hcap : MAX_PAGES ≤ pc + 1
    · rw [dif_pos hcap]
      have hn : pc + 1 = MAX_PAGES := by omega
      refine ⟨by omega, by omega, ?_, Or.inl hn⟩
      have hone : pc + 1 - pc = 1 := by omega
      rw [hone, List.range'_one, List.map_singleton, List.flatten_cons,
        List.flatten_nil, List.append_nil]
      rfl
    · rw [dif_neg hcap]
      split
      · rename_i hbtn
        dsimp only
        refine ⟨by omega, by omega, ?_, Or.inr (by rw [hbtn]; decide)⟩
        have hone : pc + 1 - pc = 1 := by omega
        rw [hone, List.range'_one, List.map_singleton, List.flatten_cons,
          List.flatten_nil, List.append_nil]
        rfl
      · rename_i hbtn
        dsimp only
        refine ⟨by omega, by omega, ?_, Or.inr (by rw [hbtn]; decide)⟩
        have hone : pc + 1 - pc = 1 := by omega
        rw [hone, List.range'_one, List.map_singleton, List.flatten_cons,
          List.flatten_nil, List.append_nil]
        rfl
      · rename_i hbtn
        have hfuel1 : MAX_PAGES ≤ (pc + 1) + fuel := by omega
        have hlt1 : pc + 1 < MAX_PAGES := by omega
        obtain ⟨ih1, ih2, ih3, ih4⟩ := ih (pc + 1)
          (acc ++ (extractWithRetry (site (pc + 1)).dom).productData)
          hfuel1 hlt1
        refine ⟨by omega, ih2, ?_, ih4⟩
        rw [ih3]
        have hsub : (scrapeGo site
            (acc ++ (extractWithRetry (site (pc + 1)).dom).productData)
            (pc + 1)).2 - pc =
          ((scrapeGo site
            (acc ++ (extractWithRetry (site (pc + 1)).dom).productData)
            (pc + 1)).2 - (pc + 1)) + 1 := by omega
        rw [hsub, List.range'_succ, List.map_cons, List.flatten_cons,
          List.append_assoc]
        rfl

theorem extractWithRetry_productData_eq (dom : Nat → List Card) :
    (extractWithRetry dom).productData =
      extractSnapshot (dom ((extractWithRetry dom).attempts - 1)) ∧
    (extractWithRetry dom).attempts - 1 < 3 := by
  rw [extractWithRetry_eq]
  split_ifs <;> exact ⟨rfl, by norm_num⟩

/-- Claim C1: the pagination loop never processes more than `MAX_PAGES = 20`
pages; the cap check precedes the "Next"-control check, so on a site whose
"Next" control is enabled on every page the loop still stops after exactly 20
pages, and the cap-hitting 20th page's snapshot is still part of the
RunResult (it is appended before the cap check fires). -/
theorem pagination_hard_cap (site : Nat → SitePage) :
    (scrapeAllProducts site).2 ≤ MAX_PAGES
  ∧ ((∀ p, (site p).nextButton = NextControl.enabled) →
      (scrapeAllProducts site).2 = MAX_PAGES ∧
      ∃ earlierRecords, (scrapeAllProducts site).1 =
        earlierRecords ++ pageSnapshot site MAX_PAGES) := by
  obtain ⟨h1, h2, h3, h4⟩ := scrapeGo_spec site MAX_PAGES 0 []
    (by omega) (by decide)
  constructor
  · exact h2
  · intro hall
    have hn : (scrapeGo site [] 0).2 = MAX_PAGES := by
      rcases h4 with h | h
      · exact h
      · exact absurd (hall _) h
    refine ⟨hn, ((List.range' 1 19).map (pageSnapshot site)).flatten, ?_⟩
    show (scrapeGo site [] 0).1 = _
    rw [h3, hn]
    have h20 : MAX_PAGES - 0 = 19 + 1 := by decide
    rw [h20, List.range'_concat, List.map_append, List.flatten_append,
      List.nil_append, List.map_singleton, List.flatten_cons, List.flatten_nil,
      List.append_nil]
    have hlast : 1 + 1 * 19 = MAX_PAGES := by decide
    rw [hlast]

/-- Claim C8: the RunResult is the concatenation, in page-arrival order, of
the per-page snapshots (pages 1 up to the final `pageCount`), and within each
page's snapshot the `i`-th record is exactly the extraction of the `i`-th item
card of the final attempt's rendered card list — extraction is a `map` over
the cards in DOM order and accumulation is list append, so no reordering
occurs anywhere. -/
theorem run_result_order (site : Nat → SitePage) :
    (scrapeAllProducts site).1 =
      ((List.range' 1 (scrapeAllProducts site).2).map (pageSnapshot site)).flatten
  ∧ ∀ (p i : Nat),
      (pageSnapshot site p)[i]? =
        (((site p).dom ((extractWithRetry (site p).dom).attempts - 1))[i]?).map
          extractFieldsFromCard := by
  constructor
  · obtain ⟨h1, h2, h3, h4⟩ := scrapeGo_spec site MAX_PAGES 0 []
      (by omega) (by decide)
    show (scrapeGo site [] 0).1 =
      ((List.range' 1 (scrapeGo site [] 0).2).map (pageSnapshot site)).flatten
    rw [h3]
    simp
  · intro p i
    have hpd := (extractWithRetry_productData_eq (site p).dom).1
    show (extractWithRetry (site p).dom).productData[i]? = _
    rw [hpd]
    unfold extractSnapshot
    simp [List.getElem?_map]

/-- Claim C10: each retry attempt overwrites the working snapshot (the loop's
outcome is a single attempt's extraction, never an accumulation across
attempts), and the pagination loop appends exactly one snapshot per page, so
the RunResult's length is the sum over processed pages of one snapshot length
each — the retry mechanism never duplicates a page's records. -/
theorem retry_never_duplicates (site : Nat → SitePage) :
    (scrapeAllProducts site).1.length =
      ((List.range' 1 (scrapeAllProducts site).2).map
        (fun p => (pageSnapshot site p).length)).sum
  ∧ ∀ p : Nat, ∃ k, k < 3 ∧
      pageSnapshot site p = extractSnapshot ((site p).dom k) := by
  constructor
  · obtain ⟨h1, h2, h3, h4⟩ := scrapeGo_spec site MAX_PAGES 0 []
      (by omega) (by decide)
    show (scrapeGo site [] 0).1.length =
      ((List.range' 1 (scrapeGo site [] 0).2).map
        (fun p => (pageSnapshot site p).length)).sum
    rw [h3]
    simp [List.length_flatten, List.map_map, Function.comp_def]
  · intro p
    exact ⟨(extractWithRetry (site p).dom).attempts - 1,
      (extractWithRetry_productData_eq (site p).dom).2,
      (extractWithRetry_productData_eq (site p).dom).1⟩

/-! ## Run Coordinator claims -/

/-- Claim C4, counterexample: when the rendering-session acquisition
(`puppeteer.connect`) fails, the catch converts the run to an empty RunResult
and the `finally` phase runs once, but `browser.close()` — the
rendering-session cleanup call — is invoked ZERO times, not once, because it
is guarded by `if (browser)` and `browser` was never assigned. -/
theorem coordinator_close_skipped_on_connect_failure :
    (mainRun (RunEnv.mk false true true
      (fun _ => SitePage.mk (fun _ => []) NextControl.absent))).runResult = []
  ∧ (mainRun (RunEnv.mk false true true
      (fun _ => SitePage.mk (fun _ => []) NextControl.absent))).browserCloseCalls
      = 0
  ∧ (mainRun (RunEnv.mk false true true
      (fun _ => SitePage.mk (fun _ => []) NextControl.absent))).cleanupRuns = 1 :=
⟨rfl, rfl, rfl⟩

/-- Claim C4, amended: any error thrown during connection, setup or
extraction is caught and converted into an empty RunResult rather than
propagated; the guaranteed `finally` cleanup phase runs exactly once on every
exit path; and within it the rendering-session close call is invoked exactly
once whenever the session was acquired (success and all later failures) and
zero times when acquisition itself failed. -/
theorem coordinator_error_handling (env : RunEnv) :
    (mainRun env).runResult =
      (if (env.connectOk && env.setupOk && env.scrapeOk) = true
        then (scrapeAllProducts env.site).1 else [])
  ∧ (mainRun env).cleanupRuns = 1
  ∧ (mainRun env).browserCloseCalls = (if env.connectOk = true then 1 else 0) := by
  rcases env with ⟨c, s, k, st⟩
  cases c <;> cases s <;> cases k <;> exact ⟨rfl, rfl, rfl⟩

end PriceScraper
